import Mathlib

/-!
Verification development for the PDF question-answering service
(`app/backend/main.py`, `app/backend/utils.py`).

The backend is modelled shallowly: uploaded files, the vector store, the
persisted index and the environment (embedding model availability, remote
failures) are explicit data, and each HTTP endpoint is a pure function from
that data to a response plus the updated state.  Text is modelled as
`List Char` so that Python's character-level operations (`len`, slicing,
`str.strip`) translate directly.
-/

set_option autoImplicit false

namespace PdfQA

abbrev Chars := List Char

/-- Whitespace as stripped by Python's `str.strip()` (ASCII subset, which
covers every character produced by the modelled pipeline). -/
def isPyWs (c : Char) : Bool :=
  c = ' ' || c = '\t' || c = '\n' || c = '\r' || c = '\x0b' || c = '\x0c'

/-- Model of Python `s.strip()`: drop whitespace from both ends. -/
def stripChars (s : Chars) : Chars :=
  ((s.dropWhile isPyWs).reverse.dropWhile isPyWs).reverse

/-- Check that `pat` occurs at the start of `s` (literal match). -/
def leadsWith : Chars → Chars → Bool
  | [], _ => true
  | _ :: _, [] => false
  | a :: as, b :: bs => a = b && leadsWith as bs

/-- Check that `pat` occurs somewhere in `s` (literal match), as
`re.search(re.escape(pat), s)` does in the splitter. -/
def containsSub (pat : Chars) : Chars → Bool
  | [] => leadsWith pat []
  | c :: rest => leadsWith pat (c :: rest) || containsSub pat rest

/-!
### Model of `langchain_text_splitters.RecursiveCharacterTextSplitter`

`utils.py` constructs `RecursiveCharacterTextSplitter(chunk_size=1000,
chunk_overlap=200, length_function=len)`, leaving the default separators
`["\n\n", "\n", " ", ""]` and `keep_separator=True`.  The functions below
translate the library's `_split_text_with_regex`, `_merge_splits` and
`_split_text`, specialised to `length_function = len` (so every length is a
raw character count) and `keep_separator=True` (so separators are attached
to the start of the following piece and the merge separator is `""`).
-/

/-- Worker for `_split_text_with_regex` with `keep_separator=True`: scan the
text, cutting just before each non-overlapping leftmost occurrence of `sep`
(the separator stays attached to the following piece).  `cur` is the piece
under construction, reversed; `fuel` bounds the scan (each step consumes at
least one character, so `text.length` is always enough). -/
def skGo (sep : Chars) : Nat → Chars → Chars → List Chars
  | _, [], cur => [cur.reverse]
  | 0, text, cur => [cur.reverse ++ text]
  | fuel + 1, c :: rest, cur =>
    if leadsWith sep (c :: rest) then
      cur.reverse :: skGo sep fuel (List.drop sep.length (c :: rest)) sep.reverse
    else
      skGo sep fuel rest (c :: cur)

/-- Model of `_split_text_with_regex(text, sep, keep_separator=True)`
followed by the `[s for s in splits if s != ""]` filter.  The empty
separator splits into single characters, as `list(text)` does. -/
def splitKeepSep (sep : Chars) (text : Chars) : List Chars :=
  if sep.isEmpty then
    (text.map (fun c => [c])).filter (fun s => !s.isEmpty)
  else
    (skGo sep text.length text []).filter (fun s => !s.isEmpty)

/-- Join the pending pieces with the empty separator and strip whitespace;
`none` when the stripped text is empty (`_join_docs`). -/
def joinStrip (cur : List Chars) : Option Chars :=
  let t := stripChars cur.flatten
  if t.isEmpty then none else some t

/-- The pop-loop of `_merge_splits`: while the running total exceeds the
overlap (200), or the next piece would not fit in a chunk (1000) and the
total is positive, drop pieces from the front of the window.  (The Python
loop only runs when `current_doc` is nonempty, which the `[]` case
reflects: there the invariant forces `total = 0` and the condition is
false.) -/
def popOverlap (dlen : Nat) : List Chars → Nat → List Chars × Nat
  | [], total => ([], total)
  | c :: cs, total =>
    if total > 200 ∨ (total + dlen > 1000 ∧ total > 0) then
      popOverlap dlen cs (total - c.length)
    else
      (c :: cs, total)

/-- The main loop of `_merge_splits` with separator `""`, chunk size 1000
and overlap 200: accumulate pieces into a window; when the next piece would
push the window past 1000 characters, emit the stripped join of the window
and slide it forward past the overlap. -/
def mergeLoop : List Chars → List Chars → Nat → List Chars
  | [], cur, _ => (joinStrip cur).toList
  | d :: rest, cur, total =>
    if total + d.length > 1000 then
      (joinStrip cur).toList ++
        (let p := popOverlap d.length cur total
         mergeLoop rest (p.1 ++ [d]) (p.2 + d.length))
    else
      mergeLoop rest (cur ++ [d]) (total + d.length)

/-- Model of `_merge_splits(splits, "")`. -/
def mergeSplits (splits : List Chars) : List Chars :=
  mergeLoop splits [] 0

/-- Choice of the active separator in `_split_text`: the first separator in
the list that is empty or occurs in the text (defaulting to the last one),
together with the remaining separators for recursion. -/
def chooseSep : List Chars → Chars → Chars × List Chars
  | [], _ => ([], [])
  | [s], _ => (s, [])
  | s :: rest, text =>
    if s.isEmpty then ([], [])
    else if containsSub s text then (s, rest)
    else chooseSep rest text

/-- The piece loop of `_split_text`: pieces shorter than the chunk size are
collected and merged; an oversized piece flushes the collected pieces and
is recursively re-split with the remaining separators (or emitted whole
when no separator remains). -/
def procLoop (recFn : Chars → List Chars) (hasNew : Bool) :
    List Chars → List Chars → List Chars
  | [], good => if good.isEmpty then [] else mergeSplits good
  | s :: rest, good =>
    if s.length < 1000 then
      procLoop recFn hasNew rest (good ++ [s])
    else
      (if good.isEmpty then [] else mergeSplits good) ++
        (if hasNew then recFn s else [s]) ++
        procLoop recFn hasNew rest []

/-- Model of `RecursiveCharacterTextSplitter._split_text`.  The fuel bounds
the recursion depth; every recursive call passes a strict suffix of the
separator list, so `separators.length` is always enough fuel. -/
def splitTextF : Nat → List Chars → Chars → List Chars
  | 0, _, _ => []
  | fuel + 1, seps, text =>
    let p := chooseSep seps text
    procLoop (splitTextF fuel p.2) (!p.2.isEmpty) (splitKeepSep p.1 text) []

/-- Default separators of `RecursiveCharacterTextSplitter`. -/
def defaultSeps : List Chars := [['\n', '\n'], ['\n'], [' '], []]

/-- Model of `text_splitter.split_text` for the splitter configured in
`utils.py` (chunk size 1000, overlap 200, `length_function=len`, default
separators, `keep_separator=True`). -/
def rccSplitText (text : Chars) : List Chars :=
  splitTextF defaultSeps.length defaultSeps text

/-- The chunk-count formula asserted by the spec, `ceil((L - O) / (C - O))`
with `C = 1000` and `O = 200`, as a natural-number computation (for
`L ≥ 200` this agrees with the real-valued ceiling). -/
def specChunkFormula (L : Nat) : Nat :=
  (L - 200 + 799) / 800

/-!
### Model of the backend state and the three endpoints

`utils.py` holds the process-wide state: `vector_store` (the in-memory
FAISS index, `None` until something is indexed) and the persisted index
directory.  The FAISS index is modelled as the list of stored document
chunks (append-only, which is all the endpoints rely on).  External
behaviour the code reacts to — embedding-model initialisation, exceptions
from FAISS calls, `save_local`, `shutil.rmtree`, pypdf, the Groq call —
is supplied as explicit environment data.
-/

/-- A chunk stored in the vector index: its text plus the
`source_filename` metadata attached in `upload_documents_endpoint`. -/
structure DocChunk where
  content : Chars
  source : Chars
deriving DecidableEq, Repr

/-- An HTTP error response (`HTTPException(status_code, detail)`). -/
structure HTTPErr where
  status : Nat
  detail : Chars
deriving DecidableEq, Repr

/-- Response model `DocumentUploadResponse`. -/
structure DocumentUploadResponse where
  message : Chars
  documents_indexed : Nat
  total_chunks_generated : Nat
deriving DecidableEq, Repr

/-- Response model `SourceDocumentInfo`. -/
structure SourceDocumentInfo where
  source_filename : Chars
  content_preview : Chars
deriving DecidableEq, Repr

/-- Response model `AnswerResponse` (`source_documents` is always a list
here; the endpoint always supplies one, possibly empty). -/
structure AnswerResponse where
  answer : Chars
  source_documents : List SourceDocumentInfo
deriving DecidableEq, Repr

/-!
#### PDF extraction (`utils.extract_text_from_pdf`)
-/

/-- A PDF as pypdf presents it to `extract_text_from_pdf`: the
per-page results of `page.extract_text()` (`none` for a page with no
extractable text, e.g. an image page), and `failAfter = some k` when
pypdf raises after `k` pages were read (`some 0` models
`pypdf.PdfReader` itself failing). -/
structure PdfFile where
  pages : List (Option Chars)
  failAfter : Option Nat
deriving DecidableEq, Repr

/-- Model of `extract_text_from_pdf`: concatenate the text of each page
that yielded non-empty text, followed by a newline each; an exception
stops the loop but the text gathered so far is still returned (the
`except` clause only logs).  The result is `.strip()`ped. -/
def extractTextFromPdf (f : PdfFile) : Chars :=
  stripChars ((f.pages.take (f.failAfter.getD f.pages.length)).foldl
    (fun acc p =>
      match p with
      | some t => if t.isEmpty then acc else acc ++ t ++ ['\n']
      | none => acc) [])

/-!
#### Ingestion (`upload_documents_endpoint`)
-/

/-- An uploaded file: its `filename` attribute (`none` models a missing
filename; the code treats `None` and `""` alike as falsy), the PDF
content behind it, and whether saving it to the scratch path raises
(`ioError`, caught by the per-file `except`). -/
structure UploadFile where
  filename : Option Chars
  pdf : PdfFile
  ioError : Bool
deriving DecidableEq, Repr

/-- Model of `str.lower()` restricted to ASCII, which is what the
filename comparison needs. -/
def lowerChars (s : Chars) : Chars := s.map Char.toLower

/-- Check `filename.lower().endswith(".pdf")`. -/
def endsWithPdf (s : Chars) : Bool :=
  leadsWith ['f', 'd', 'p', '.'] (lowerChars s).reverse

/-- The filename passes the two guards at the top of the per-file loop
(`if not file.filename` and the `.pdf` extension check). -/
def acceptedFilename (f : UploadFile) : Option Chars :=
  match f.filename with
  | none => none
  | some fn =>
    if fn.isEmpty then none
    else if endsWithPdf fn then some fn
    else none

/-- The scratch write performed for a file that passed the filename
guards (the file is saved to `UPLOAD_DIR` before extraction, whether or
not extraction later succeeds). -/
def fileWriteAttempt (f : UploadFile) : Option Chars := acceptedFilename f

/-- What one iteration of the ingestion loop contributes: `none` when
the file is skipped (bad filename, per-file exception, empty extraction,
no chunks), otherwise the chunk list and the filename for metadata. -/
def fileContribution (f : UploadFile) : Option (List Chars × Chars) :=
  match acceptedFilename f with
  | none => none
  | some fn =>
    if f.ioError then none
    else
      let raw := extractTextFromPdf f.pdf
      if raw.isEmpty then none
      else
        let chunks := rccSplitText raw
        if chunks.isEmpty then none else some (chunks, fn)

/-- Accumulated result of the per-file loop: `processed_files_count`,
`total_chunks_generated_for_session`, `all_langchain_documents`, and the
scratch-directory writes performed along the way. -/
structure LoopAcc where
  processed : Nat
  totalChunks : Nat
  docs : List DocChunk
  writes : List Chars
deriving DecidableEq, Repr

/-- The per-file loop of `upload_documents_endpoint`, processing files
left to right. -/
def ingestLoop : List UploadFile → LoopAcc
  | [] => ⟨0, 0, [], []⟩
  | f :: rest =>
    let r := ingestLoop rest
    match fileContribution f with
    | none =>
      ⟨r.processed, r.totalChunks, r.docs, (fileWriteAttempt f).toList ++ r.writes⟩
    | some (chunks, fn) =>
      ⟨r.processed + 1, r.totalChunks + chunks.length,
        chunks.map (fun ch => ⟨ch, fn⟩) ++ r.docs,
        (fileWriteAttempt f).toList ++ r.writes⟩

/-- Environment for one ingestion request: whether the embedding model
initialised at startup, whether `FAISS.from_documents` /
`add_documents` raises (with the exception message), and whether
`vector_store.save_local` raises inside `save_vector_store`. -/
structure IngestEnv where
  embeddingModelOk : Bool
  indexUpdateError : Option Chars
  saveFails : Bool
deriving DecidableEq, Repr

/-- Outcome of one ingestion request: the HTTP response, the in-memory
store afterwards, the persisted index afterwards, and the scratch
writes. -/
structure IngestOutcome where
  response : Except HTTPErr DocumentUploadResponse
  store : Option (List DocChunk)
  persisted : Option (List DocChunk)
  tempWrites : List Chars
deriving Repr

def embNotInitMsg : Chars :=
  "Embedding model is not initialized. Cannot process documents.".toList

def noValidMsg : Chars :=
  "No PDF files provided were valid or processable.".toList

def emptyOkMsg : Chars :=
  "No new documents were suitable for indexing or no text could be extracted.".toList

def successMsg (p : Nat) : Chars :=
  (s!"Documents processed successfully. {p} PDF(s) indexed.").toList

def failIndexMsgFor (cause : Chars) : Chars :=
  "Failed to create or update vector store: ".toList ++ cause

/-- Model of `upload_documents_endpoint`. -/
def uploadDocuments (env : IngestEnv) (store persisted : Option (List DocChunk))
    (files : List UploadFile) : IngestOutcome :=
  if !env.embeddingModelOk then
    ⟨.error ⟨500, embNotInitMsg⟩, store, persisted, []⟩
  else
    let r := ingestLoop files
    if r.docs.isEmpty then
      if r.processed = 0 ∧ files.length > 0 then
        ⟨.error ⟨400, noValidMsg⟩, store, persisted, r.writes⟩
      else
        ⟨.ok ⟨emptyOkMsg, 0, 0⟩, store, persisted, r.writes⟩
    else
      match env.indexUpdateError with
      | some cause =>
        ⟨.error ⟨500, failIndexMsgFor cause⟩, store, persisted, r.writes⟩
      | none =>
        let newStore := some (store.getD [] ++ r.docs)
        ⟨.ok ⟨successMsg r.processed, r.processed, r.totalChunks⟩,
          newStore,
          if env.saveFails then persisted else newStore,
          r.writes⟩

/-!
#### Query (`ask_question_endpoint`)
-/

/-- Environment for one query request: whether `GROQ_API_KEY` is set,
the similarity ranking the FAISS retriever would produce (indices into
the stored chunk list, most similar first), and the remote chain's
behaviour (`llmError` when `qa_chain.invoke` raises, otherwise the raw
answer string the LLM returns). -/
structure QueryEnv where
  groqConfigured : Bool
  ranking : List Nat
  llmError : Option Chars
  llmAnswer : Chars
deriving DecidableEq, Repr

def noIndexMsg : Chars :=
  ("No documents have been indexed. " ++
    "Please upload documents using the /documents endpoint first.").toList

def noKeyMsg : Chars :=
  ("Groq API key (GROQ_API_KEY) is not configured on the server. " ++
    "LLM functionality is unavailable.").toList

def emptyQuestionMsg : Chars := "Question cannot be empty.".toList

def qaErrMsgFor (cause : Chars) : Chars :=
  "An error occurred while processing your question: ".toList ++ cause

/-- Model of `not request.question.strip()`. -/
def isBlank (q : Chars) : Bool := (stripChars q).isEmpty

/-- The retriever configured with `search_kwargs={"k": 3}`: the three
most similar stored chunks, in similarity order. -/
def retrieve3 (ranking : List Nat) (docs : List DocChunk) : List DocChunk :=
  (ranking.filterMap (fun i => docs[i]?)).take 3

/-- Preview built for each source document: the first 250 characters of
the chunk plus a `"..."` marker. -/
def previewOf (d : DocChunk) : SourceDocumentInfo :=
  ⟨d.source, d.content.take 250 ++ ['.', '.', '.']⟩

/-- Model of `ask_question_endpoint`. -/
def askQuestion (env : QueryEnv) (store : Option (List DocChunk)) (q : Chars) :
    Except HTTPErr AnswerResponse :=
  match store with
  | none => .error ⟨400, noIndexMsg⟩
  | some docs =>
    if !env.groqConfigured then .error ⟨500, noKeyMsg⟩
    else if isBlank q then .error ⟨400, emptyQuestionMsg⟩
    else
      match env.llmError with
      | some cause => .error ⟨500, qaErrMsgFor cause⟩
      | none =>
        .ok ⟨stripChars env.llmAnswer, (retrieve3 env.ranking docs).map previewOf⟩

/-!
#### Reset (`reset_index_endpoint`)
-/

/-- Environment for one reset request: whether the persisted index
directory exists, and whether `shutil.rmtree` raises (with the
exception message). -/
structure ResetEnv where
  dirExists : Bool
  rmtreeError : Option Chars
deriving DecidableEq, Repr

/-- Outcome of a reset request: response, in-memory store afterwards,
and whether the index directory exists afterwards. -/
structure ResetOutcome where
  response : Except HTTPErr Chars
  store : Option (List DocChunk)
  dirExistsAfter : Bool
deriving Repr

def resetOkMsg : Chars :=
  "Vector store and persisted index have been reset successfully.".toList

def resetNoStoreMsg : Chars :=
  "No persisted vector store found to reset. In-memory store cleared.".toList

def resetErrMsgFor (cause : Chars) : Chars :=
  "Could not fully reset vector store directory: ".toList ++ cause

/-- Model of `reset_index_endpoint`.  `vector_store = None` happens
first, before any filesystem work, so the resulting store is `none` in
every branch; `os.makedirs(..., exist_ok=True)` runs in every branch —
including just before the failure branch re-raises — so the directory
exists afterwards in every branch. -/
def resetIndex (env : ResetEnv) (_store : Option (List DocChunk)) : ResetOutcome :=
  if env.dirExists then
    match env.rmtreeError with
    | none => ⟨.ok resetOkMsg, none, true⟩
    | some cause => ⟨.error ⟨500, resetErrMsgFor cause⟩, none, true⟩
  else
    ⟨.ok resetNoStoreMsg, none, true⟩

/-- Model of `load_vector_store` as run at startup (`startup_event`):
with no embedding model or no persisted index file the store stays
unset; a load failure also leaves it unset. -/
def loadVectorStore (embOk : Bool) (persisted : Option (List DocChunk))
    (loadFails : Bool) : Option (List DocChunk) :=
  if !embOk then none
  else
    match persisted with
    | none => none
    | some d => if loadFails then none else some d

/-!
#### Concrete inputs used by counterexamples and witnesses
-/

/-- A PDF whose single page has no extractable text (e.g. an image-only
page). -/
def blankPdfFile : UploadFile := ⟨some "scan.pdf".toList, ⟨[none], none⟩, false⟩

/-- A well-formed one-page PDF with a little text. -/
def helloFile : UploadFile :=
  ⟨some "a.pdf".toList, ⟨[some "hello world".toList], none⟩, false⟩

/-- A PDF on which pypdf raises after the first page was read: extraction
fails midway, with partial text already gathered. -/
def truncatedFile : UploadFile :=
  ⟨some "doc.pdf".toList,
    ⟨[some "hello world".toList, some "unread".toList], some 1⟩, false⟩

/-- An upload whose filename does not end in `.pdf`. -/
def txtFile : UploadFile :=
  ⟨some "notes.txt".toList, ⟨[some "hello".toList], none⟩, false⟩

/-- A PDF-named upload whose scratch save raises (per-file exception). -/
def ioErrFile : UploadFile :=
  ⟨some "bad.pdf".toList, ⟨[some "text".toList], none⟩, true⟩

/-- A stored chunk used in query-side witnesses. -/
def sampleChunk : DocChunk := ⟨"c".toList, "a.pdf".toList⟩

/-!
### Lemmas about the splitter
-/

theorem leadsWith_eq_append :
    ∀ (sep t : Chars), leadsWith sep t = true → sep ++ List.drop sep.length t = t := by
  intro sep
  induction sep with
  | nil => intro t _; simp
  | cons a as ih =>
    intro t h
    cases t with
    | nil => simp [leadsWith] at h
    | cons b bs =>
      simp only [leadsWith, Bool.and_eq_true, decide_eq_true_eq] at h
      obtain ⟨hab, h2⟩ := h
      subst hab
      simpa [List.length_cons] using ih bs h2

theorem skGo_flatten (sep : Chars) :
    ∀ (fuel : Nat) (text cur : Chars),
      (skGo sep fuel text cur).flatten = cur.reverse ++ text := by
  intro fuel
  induction fuel with
  | zero => intro text cur; cases text <;> simp [skGo]
  | succ f ih =>
    intro text cur
    cases text with
    | nil => simp [skGo]
    | cons c rest =>
      by_cases h : leadsWith sep (c :: rest) = true
      · simp only [skGo, h, if_true, List.flatten_cons, ih, List.reverse_reverse]
        rw [leadsWith_eq_append sep _ h]
      · simp only [skGo, h]
        simp only [Bool.false_eq_true, if_false, ih, List.reverse_cons]
        simp

theorem filter_nonempty_flatten :
    ∀ (l : List Chars), (l.filter (fun s => !s.isEmpty)).flatten = l.flatten := by
  intro l
  induction l with
  | nil => rfl
  | cons s rest ih =>
    by_cases h : s.isEmpty
    · have hs : s = [] := List.isEmpty_iff.mp h
      simp [List.filter_cons, h, hs, ih]
    · simp [List.filter_cons, h, ih]

theorem flatten_map_singleton :
    ∀ (text : Chars), (text.map (fun c => [c])).flatten = text := by
  intro text
  induction text with
  | nil => rfl
  | cons c rest ih => simp [ih]

/-- Splitting never loses characters: the pieces concatenate back to the
input text. -/
theorem splitKeepSep_flatten (sep text : Chars) :
    (splitKeepSep sep text).flatten = text := by
  by_cases h : sep.isEmpty
  · simp only [splitKeepSep, h, if_true]
    rw [filter_nonempty_flatten, flatten_map_singleton]
  · simp only [splitKeepSep, h, Bool.false_eq_true, if_false]
    rw [filter_nonempty_flatten, skGo_flatten]
    simp

theorem length_le_flatten {s : Chars} {l : List Chars} (h : s ∈ l) :
    s.length ≤ l.flatten.length := by
  induction l with
  | nil => cases h
  | cons a rest ih =>
    rcases List.mem_cons.mp h with h1 | h1
    · subst h1; simp
    · have := ih h1
      simp only [List.flatten_cons, List.length_append]
      omega

/-- When the pieces fit into a single chunk, the merge loop emits at most
one chunk: the stripped concatenation of everything in flight. -/
theorem mergeLoop_small :
    ∀ (splits cur : List Chars) (total : Nat),
      total + (splits.map List.length).sum ≤ 1000 →
      mergeLoop splits cur total = (joinStrip (cur ++ splits)).toList := by
  intro splits
  induction splits with
  | nil => intro cur total _; simp [mergeLoop]
  | cons d rest ih =>
    intro cur total h
    simp only [List.map_cons, List.sum_cons] at h
    have hd : ¬ (total + d.length > 1000) := by omega
    simp only [mergeLoop, if_neg hd]
    rw [ih (cur ++ [d]) (total + d.length) (by omega)]
    rw [List.append_assoc]
    rfl

/-- When every piece is strictly shorter than the chunk size, the piece
loop just merges everything. -/
theorem procLoop_allGood (recFn : Chars → List Chars) (hasNew : Bool) :
    ∀ (splits good : List Chars), (∀ s ∈ splits, s.length < 1000) →
      procLoop recFn hasNew splits good =
        if (good ++ splits).isEmpty then [] else mergeSplits (good ++ splits) := by
  intro splits
  induction splits with
  | nil => intro good _; simp [procLoop]
  | cons s rest ih =>
    intro good h
    have hs : s.length < 1000 := h s (by simp)
    simp only [procLoop, if_pos hs]
    rw [ih (good ++ [s]) (fun t ht => h t (by simp [ht]))]
    rw [List.append_assoc]
    rfl

/-- On any text shorter than the chunk size (whatever the separator list),
`_split_text` returns the stripped text as its only chunk, or nothing when
the text strips to empty. -/
theorem splitTextF_short (fuel : Nat) (seps : List Chars) (text : Chars)
    (h : text.length < 1000) :
    splitTextF (fuel + 1) seps text =
      if (stripChars text).isEmpty then [] else [stripChars text] := by
  simp only [splitTextF]
  set p := chooseSep seps text with hp
  set S := splitKeepSep p.1 text with hS
  have hflat : S.flatten = text := splitKeepSep_flatten p.1 text
  have hgood : ∀ s ∈ S, s.length < 1000 := by
    intro s hsmem
    have := length_le_flatten hsmem
    rw [hflat] at this
    omega
  rw [procLoop_allGood _ _ S [] hgood]
  simp only [List.nil_append]
  by_cases hemp : S.isEmpty
  · have hSnil : S = [] := List.isEmpty_iff.mp hemp
    have htext : text = [] := by rw [← hflat, hSnil]; rfl
    simp [hemp, htext, stripChars]
  · simp only [hemp, Bool.false_eq_true, if_false]
    have hsum : (0 : Nat) + (S.map List.length).sum ≤ 1000 := by
      have : (S.map List.length).sum = S.flatten.length := by
        rw [List.length_flatten]
      rw [this, hflat]
      omega
    rw [mergeSplits, mergeLoop_small S [] 0 hsum]
    simp only [List.nil_append, joinStrip, hflat]
    by_cases hstr : (stripChars text).isEmpty
    · simp [hstr]
    · simp [hstr]

/-- Claim C5 (amended): for every input text shorter than the chunk size
(1000 characters), the configured splitter produces exactly one chunk —
the whitespace-stripped text — when the stripped text is nonempty, and no
chunk at all when the text is entirely whitespace.  (As stated the claim
fails: whitespace-only inputs yield zero chunks, and the
`ceil((L-O)/(C-O))` count does not hold in general — chunk boundaries
follow the separator structure and whitespace stripping, not raw length
alone; see the counterexample.) -/
theorem rccSplitText_short (text : Chars) (h : text.length < 1000) :
    rccSplitText text =
      if (stripChars text).isEmpty then [] else [stripChars text] := by
  have h4 : defaultSeps.length = 3 + 1 := rfl
  rw [rccSplitText, h4, splitTextF_short 3 defaultSeps text h]

/-!
### Behaviour on whitespace-only input

On a run of spaces the splitter picks the `" "` separator, splits into
single-space pieces, and every merged window strips to the empty string,
so no chunk at all is produced — whatever the length of the input.
-/

theorem stripChars_eq_nil (s : Chars) (h : ∀ c ∈ s, isPyWs c = true) :
    stripChars s = [] := by
  have h1 : s.dropWhile isPyWs = [] := by
    rw [List.dropWhile_eq_nil_iff]
    intro c hc
    exact h c hc
  simp [stripChars, h1]

theorem joinStrip_ws (cur : List Chars)
    (h : ∀ s ∈ cur, ∀ c ∈ s, isPyWs c = true) : joinStrip cur = none := by
  have hflat : ∀ c ∈ cur.flatten, isPyWs c = true := by
    intro c hc
    rcases List.mem_flatten.mp hc with ⟨s, hs, hcs⟩
    exact h s hs c hcs
  simp [joinStrip, stripChars_eq_nil _ hflat]

theorem popOverlap_subset (dlen : Nat) :
    ∀ (cur : List Chars) (total : Nat) (s : Chars),
      s ∈ (popOverlap dlen cur total).1 → s ∈ cur := by
  intro cur
  induction cur with
  | nil => intro total s h; simp [popOverlap] at h
  | cons c cs ih =>
    intro total s h
    by_cases hcond : total > 200 ∨ (total + dlen > 1000 ∧ total > 0)
    · simp only [popOverlap, if_pos hcond] at h
      exact List.mem_cons_of_mem c (ih _ s h)
    · simp only [popOverlap, if_neg hcond] at h
      exact h

/-- The merge loop never emits a chunk when every piece in flight is pure
whitespace. -/
theorem mergeLoop_allWs :
    ∀ (splits cur : List Chars) (total : Nat),
      (∀ s ∈ splits, ∀ c ∈ s, isPyWs c = true) →
      (∀ s ∈ cur, ∀ c ∈ s, isPyWs c = true) →
      mergeLoop splits cur total = [] := by
  intro splits
  induction splits with
  | nil =>
    intro cur total _ hcur
    simp [mergeLoop, joinStrip_ws cur hcur]
  | cons d rest ih =>
    intro cur total hs hcur
    have hd : ∀ c ∈ d, isPyWs c = true := hs d (by simp)
    have hrest : ∀ s ∈ rest, ∀ c ∈ s, isPyWs c = true :=
      fun s hsm => hs s (by simp [hsm])
    by_cases h1000 : total + d.length > 1000
    · simp only [mergeLoop, if_pos h1000, joinStrip_ws cur hcur, Option.toList_none,
        List.nil_append]
      apply ih _ _ hrest
      intro s hsm
      rcases List.mem_append.mp hsm with h1 | h1
      · exact hcur s (popOverlap_subset d.length cur total s h1)
      · rcases List.mem_singleton.mp h1 with rfl
        exact hd
    · simp only [mergeLoop, if_neg h1000]
      apply ih _ _ hrest
      intro s hsm
      rcases List.mem_append.mp hsm with h1 | h1
      · exact hcur s h1
      · rcases List.mem_singleton.mp h1 with rfl
        exact hd

theorem skGo_spaces :
    ∀ (n fuel : Nat) (cur : Chars), n ≤ fuel →
      skGo [' '] fuel (List.replicate n ' ') cur =
        cur.reverse :: List.replicate n [' '] := by
  intro n
  induction n with
  | zero => intro fuel cur _; cases fuel <;> simp [skGo]
  | succ m ih =>
    intro fuel cur hle
    cases fuel with
    | zero => omega
    | succ f =>
      have hlw : leadsWith [' '] (' ' :: List.replicate m ' ') = true := by
        simp [leadsWith]
      simp only [List.replicate_succ, skGo, hlw, if_true]
      rw [show List.drop (List.length [' ']) (' ' :: List.replicate m ' ')
            = List.replicate m ' ' from rfl,
        show ([' '] : Chars).reverse = [' '] from rfl,
        ih f [' '] (by omega)]
      rfl

theorem containsSub_nl2_spaces :
    ∀ (n : Nat), containsSub ['\n', '\n'] (List.replicate n ' ') = false := by
  intro n
  induction n with
  | zero => rfl
  | succ m ih => simp [List.replicate_succ, containsSub, leadsWith, ih]

theorem containsSub_nl_spaces :
    ∀ (n : Nat), containsSub ['\n'] (List.replicate n ' ') = false := by
  intro n
  induction n with
  | zero => rfl
  | succ m ih => simp [List.replicate_succ, containsSub, leadsWith, ih]

theorem splitKeepSep_spaces (n : Nat) :
    splitKeepSep [' '] (List.replicate n ' ') = List.replicate n [' '] := by
  simp only [splitKeepSep]
  rw [show ([' '] : Chars).isEmpty = false from rfl]
  simp only [Bool.false_eq_true, if_false]
  rw [List.length_replicate, skGo_spaces n n [] (Nat.le_refl n)]
  simp only [List.reverse_nil, List.filter_cons]
  rw [List.filter_eq_self.mpr ?_]
  · rfl
  · intro s hsm
    have : s = [' '] := List.eq_of_mem_replicate hsm
    simp [this]

/-- A nonempty run of spaces yields no chunk at all, whatever its length. -/
theorem rccSplitText_spaces (m : Nat) :
    rccSplitText (List.replicate (m + 1) ' ') = [] := by
  have hchoose : chooseSep defaultSeps (List.replicate (m + 1) ' ')
      = ([' '], [([] : Chars)]) := by
    have h1 := containsSub_nl2_spaces (m + 1)
    have h2 := containsSub_nl_spaces (m + 1)
    have h3 : containsSub [' '] (List.replicate (m + 1) ' ') = true := by
      simp [List.replicate_succ, containsSub, leadsWith]
    simp [defaultSeps, chooseSep, h1, h2, h3]
  have h4 : defaultSeps.length = 3 + 1 := rfl
  rw [rccSplitText, h4]
  simp only [splitTextF, hchoose, splitKeepSep_spaces]
  rw [procLoop_allGood _ _ _ [] (fun s hsm => by
    rw [List.eq_of_mem_replicate hsm]; decide)]
  simp only [List.nil_append]
  cases hm : (List.replicate (m + 1) [' '] : List Chars).isEmpty
  · simp only [Bool.false_eq_true, if_false, mergeSplits]
    apply mergeLoop_allWs _ _ _ ?_ (by intro s h; cases h)
    intro s hsm c hc
    rw [List.eq_of_mem_replicate hsm] at hc
    rcases List.mem_singleton.mp hc with rfl
    rfl
  · simp at hm

/-!
### Lemmas about the ingestion loop
-/

/-- A file whose contribution is `none` leaves the loop counters and the
accumulated documents unchanged (only the scratch-write trace can
differ). -/
theorem ingestLoop_skip_middle (f : UploadFile) (hf : fileContribution f = none) :
    ∀ (l1 l2 : List UploadFile),
      (ingestLoop (l1 ++ f :: l2)).processed = (ingestLoop (l1 ++ l2)).processed ∧
      (ingestLoop (l1 ++ f :: l2)).totalChunks = (ingestLoop (l1 ++ l2)).totalChunks ∧
      (ingestLoop (l1 ++ f :: l2)).docs = (ingestLoop (l1 ++ l2)).docs := by
  intro l1 l2
  induction l1 with
  | nil => simp [ingestLoop, hf]
  | cons g rest ih =>
    obtain ⟨h1, h2, h3⟩ := ih
    simp only [List.cons_append, ingestLoop]
    cases hg : fileContribution g with
    | none => exact ⟨h1, h2, h3⟩
    | some pr => exact ⟨by simp [h1], by simp [h2], by simp [h3]⟩

/-- A file that is skipped before the scratch write (bad filename) is
entirely invisible to the loop. -/
theorem ingestLoop_remove_inert (f : UploadFile) (hf : fileContribution f = none)
    (hw : fileWriteAttempt f = none) :
    ∀ (l1 l2 : List UploadFile),
      ingestLoop (l1 ++ f :: l2) = ingestLoop (l1 ++ l2) := by
  intro l1 l2
  induction l1 with
  | nil => simp [ingestLoop, hf, hw]
  | cons g rest ih =>
    simp only [List.cons_append, ingestLoop, List.append_eq, ih]

/-- When every file is skipped, the loop ends with zero counters and no
documents. -/
theorem ingestLoop_allSkipped :
    ∀ (files : List UploadFile), (∀ f ∈ files, fileContribution f = none) →
      (ingestLoop files).processed = 0 ∧ (ingestLoop files).totalChunks = 0 ∧
        (ingestLoop files).docs = [] := by
  intro files
  induction files with
  | nil => intro _; exact ⟨rfl, rfl, rfl⟩
  | cons f rest ih =>
    intro h
    have hf := h f (by simp)
    obtain ⟨h1, h2, h3⟩ := ih (fun g hg => h g (by simp [hg]))
    simp [ingestLoop, hf, h1, h2, h3]

/-- A file with a per-file exception or an empty extraction contributes
nothing, whatever its filename. -/
theorem fileContribution_skip (f : UploadFile)
    (h : f.ioError = true ∨ extractTextFromPdf f.pdf = []) :
    fileContribution f = none := by
  unfold fileContribution
  cases hacc : acceptedFilename f with
  | none => rfl
  | some fn =>
    rcases h with h | h
    · simp [h]
    · simp [h]

/-!
### Claim theorems
-/

/-- Claim C5 witness: a short non-blank text produces its stripped self as
the single chunk. -/
theorem rccSplitText_short_witness :
    ("hello world".toList).length < 1000 ∧
      rccSplitText "hello world".toList =
        (if (stripChars "hello world".toList).isEmpty then []
          else [stripChars "hello world".toList]) :=
  ⟨by decide, rccSplitText_short "hello world".toList (by decide)⟩

set_option maxRecDepth 8000 in
/-- Claim C5 counterexample: a single space is shorter than the chunk size
yet produces zero chunks (not exactly one); a run of 1001 spaces produces
zero chunks while the claimed formula `ceil((L-200)/800)` gives 2, outside
the claimed tolerance of plus or minus 1. -/
theorem C5_counterexample :
    rccSplitText [' '] = [] ∧
      ([' '] : Chars).length < 1000 ∧
      rccSplitText (List.replicate (1000 + 1) ' ') = [] ∧
      (List.replicate (1000 + 1) ' ').length = 1001 ∧
      specChunkFormula 1001 = 2 ∧ 0 + 1 < 2 :=
  ⟨by decide, by decide, rccSplitText_spaces 1000, by simp, by decide, by decide⟩

set_option maxRecDepth 4000 in
/-- Claim C1 (amended): when every uploaded file is a PDF whose extraction
yields empty text, nothing is indexed — but the endpoint then raises a
client error (400, "No PDF files provided were valid or processable.")
whenever the request contains at least one file; only an empty request
returns `documents_indexed = 0`, `total_chunks_generated = 0` without
error. -/
theorem C1_allBlankPdfs (env : IngestEnv) (s p : Option (List DocChunk))
    (files : List UploadFile) (hemb : env.embeddingModelOk = true)
    (h : ∀ f ∈ files, (acceptedFilename f).isSome = true ∧ f.ioError = false ∧
      extractTextFromPdf f.pdf = []) :
    (uploadDocuments env s p files).response =
      if files.isEmpty then .ok ⟨emptyOkMsg, 0, 0⟩
      else .error ⟨400, noValidMsg⟩ := by
  have hcontrib : ∀ f ∈ files, fileContribution f = none := by
    intro f hfm
    obtain ⟨h1, h2, h3⟩ := h f hfm
    unfold fileContribution
    cases hacc : acceptedFilename f with
    | none => rfl
    | some fn => simp [h2, h3]
  obtain ⟨hp, ht, hd⟩ := ingestLoop_allSkipped files hcontrib
  unfold uploadDocuments
  rw [hemb]
  cases files with
  | nil => simp [ingestLoop]
  | cons f rest => simp [hd, hp]

/-- Claim C1 witness: one blank-page PDF triggers the 400 branch. -/
theorem C1_allBlankPdfs_witness :
    (⟨true, none, false⟩ : IngestEnv).embeddingModelOk = true ∧
      (∀ f ∈ [blankPdfFile], (acceptedFilename f).isSome = true ∧
        f.ioError = false ∧ extractTextFromPdf f.pdf = []) ∧
      (uploadDocuments ⟨true, none, false⟩ none none [blankPdfFile]).response =
        (if ([blankPdfFile] : List UploadFile).isEmpty
          then .ok ⟨emptyOkMsg, 0, 0⟩ else .error ⟨400, noValidMsg⟩) :=
  ⟨rfl, by decide, C1_allBlankPdfs _ _ _ _ rfl (by decide)⟩

/-- Claim C1 counterexample: a request with one PDF whose extraction is
empty does not return zero counts without error — it raises a 400 client
error. -/
theorem C1_counterexample :
    extractTextFromPdf blankPdfFile.pdf = [] ∧
      (uploadDocuments ⟨true, none, false⟩ none none [blankPdfFile]).response =
        .error ⟨400, noValidMsg⟩ :=
  ⟨rfl, rfl⟩

/-- Claim C2 (amended): a failure while persisting the index to disk is
caught and logged inside `save_vector_store` and does not propagate: the
ingestion response and the in-memory store are exactly as on a successful
save, and the on-disk index is simply left unchanged.  (Only failures of
`FAISS.from_documents` / `add_documents` propagate as 500 errors; nothing
is retried.) -/
theorem C2_saveFailureSwallowed (emb : Bool) (upd : Option Chars)
    (s p : Option (List DocChunk)) (files : List UploadFile) :
    (uploadDocuments ⟨emb, upd, true⟩ s p files).response =
        (uploadDocuments ⟨emb, upd, false⟩ s p files).response ∧
      (uploadDocuments ⟨emb, upd, true⟩ s p files).store =
        (uploadDocuments ⟨emb, upd, false⟩ s p files).store ∧
      (uploadDocuments ⟨emb, upd, true⟩ s p files).persisted = p := by
  cases emb with
  | false => exact ⟨rfl, rfl, rfl⟩
  | true =>
    simp only [uploadDocuments]
    by_cases hdocs : (ingestLoop files).docs.isEmpty
    · simp only [hdocs]
      by_cases hcond : (ingestLoop files).processed = 0 ∧ files.length > 0
      · simp [hcond]
      · simp [hcond]
    · simp only [hdocs]
      cases upd with
      | some cause => simp
      | none => simp

/-- Claim C2 counterexample: with one good PDF and a failing save, the
endpoint reports success (no server error) and the persisted index stays
unchanged. -/
theorem C2_counterexample :
    (uploadDocuments ⟨true, none, true⟩ none none [helloFile]).response =
        .ok ⟨successMsg 1, 1, 1⟩ ∧
      (uploadDocuments ⟨true, none, true⟩ none none [helloFile]).store =
        some [⟨"hello world".toList, "a.pdf".toList⟩] ∧
      (uploadDocuments ⟨true, none, true⟩ none none [helloFile]).persisted = none :=
  ⟨rfl, rfl, rfl⟩

/-- Claim C3 (amended): a file whose per-file processing raises, or whose
extraction recovers no text at all, is skipped: it contributes nothing to
the counts or the index, the remaining files are processed exactly as if
it were absent, and the request outcome is unchanged (provided some other
file remains).  However, when pypdf raises midway through a file,
`extract_text_from_pdf` returns the text gathered so far, and if that
partial text is nonempty the file IS indexed — it is not skipped (see the
counterexample). -/
theorem C3_skippedFileIsolated (env : IngestEnv) (s p : Option (List DocChunk))
    (l1 l2 : List UploadFile) (f : UploadFile)
    (hf : f.ioError = true ∨ extractTextFromPdf f.pdf = [])
    (hne : l1 ++ l2 ≠ []) :
    (uploadDocuments env s p (l1 ++ f :: l2)).response =
        (uploadDocuments env s p (l1 ++ l2)).response ∧
      (uploadDocuments env s p (l1 ++ f :: l2)).store =
        (uploadDocuments env s p (l1 ++ l2)).store ∧
      (uploadDocuments env s p (l1 ++ f :: l2)).persisted =
        (uploadDocuments env s p (l1 ++ l2)).persisted := by
  have hc := fileContribution_skip f hf
  obtain ⟨h1, h2, h3⟩ := ingestLoop_skip_middle f hc l1 l2
  have hl1 : (l1 ++ f :: l2).length > 0 := by simp
  have hl2 : (l1 ++ l2).length > 0 := by
    cases h' : l1 ++ l2 with
    | nil => exact absurd h' hne
    | cons a t => simp [h']
  cases env with
  | mk emb upd sf =>
    cases emb with
    | false => exact ⟨rfl, rfl, rfl⟩
    | true =>
      simp only [uploadDocuments, h1, h2, h3, hl1, hl2]
      by_cases hdocs : (ingestLoop (l1 ++ l2)).docs.isEmpty
      · by_cases hproc : (ingestLoop (l1 ++ l2)).processed = 0
        · simp [hdocs, hproc]
        · simp [hdocs, hproc]
      · simp only [hdocs]
        cases upd with
        | some cause => simp
        | none => simp [h2]

/-- Claim C3 witness: a file whose scratch save raises is invisible to the
outcome when another valid file is present. -/
theorem C3_skippedFileIsolated_witness :
    (ioErrFile.ioError = true ∨ extractTextFromPdf ioErrFile.pdf = []) ∧
      ([helloFile] : List UploadFile) ++ [] ≠ [] ∧
      (uploadDocuments ⟨true, none, false⟩ none none
          ([helloFile] ++ ioErrFile :: [])).response =
        (uploadDocuments ⟨true, none, false⟩ none none ([helloFile] ++ [])).response :=
  ⟨Or.inl rfl, by decide,
    (C3_skippedFileIsolated ⟨true, none, false⟩ none none [helloFile] []
      ioErrFile (Or.inl rfl) (by decide)).1⟩

/-- Claim C3 counterexample: pypdf raises on `truncatedFile` after one
page (`failAfter = some 1`), yet the file is not skipped — its partial
text is indexed and it contributes one document and one chunk. -/
theorem C3_counterexample :
    truncatedFile.pdf.failAfter = some 1 ∧
      (uploadDocuments ⟨true, none, false⟩ none none [truncatedFile]).response =
        .ok ⟨successMsg 1, 1, 1⟩ ∧
      (uploadDocuments ⟨true, none, false⟩ none none [truncatedFile]).store =
        some [⟨"hello world".toList, "doc.pdf".toList⟩] :=
  ⟨rfl, rfl, rfl⟩

/-- Claim C4 (amended): a blank or whitespace-only question yields a
client error (400) whenever the LLM credential is configured or no index
is loaded; but the credential check precedes the blank-question check, so
with an index loaded and the credential missing, a blank question yields
the 500 server-configuration error instead (see the counterexample). -/
theorem C4_blankQuestionClientError (env : QueryEnv)
    (store : Option (List DocChunk)) (q : Chars) (hq : isBlank q = true)
    (h : env.groqConfigured = true ∨ store = none) :
    askQuestion env store q = .error ⟨400, noIndexMsg⟩ ∨
      askQuestion env store q = .error ⟨400, emptyQuestionMsg⟩ := by
  cases store with
  | none => exact Or.inl rfl
  | some docs =>
    rcases h with hg | hn
    · right
      simp [askQuestion, hg, hq]
    · cases hn

/-- Claim C4 witness: with the credential configured, a whitespace-only
question draws the 400 "Question cannot be empty." error. -/
theorem C4_blankQuestionClientError_witness :
    isBlank " ".toList = true ∧
      ((⟨true, [0], none, []⟩ : QueryEnv).groqConfigured = true ∨
        (some [sampleChunk] : Option (List DocChunk)) = none) ∧
      (askQuestion ⟨true, [0], none, []⟩ (some [sampleChunk]) " ".toList =
          .error ⟨400, noIndexMsg⟩ ∨
        askQuestion ⟨true, [0], none, []⟩ (some [sampleChunk]) " ".toList =
          .error ⟨400, emptyQuestionMsg⟩) :=
  ⟨rfl, Or.inl rfl,
    C4_blankQuestionClientError ⟨true, [0], none, []⟩ (some [sampleChunk])
      " ".toList rfl (Or.inl rfl)⟩

/-- Claim C4 counterexample: index loaded, credential missing, question
blank — the endpoint returns the 500 server error about the missing key,
not a client error. -/
theorem C4_counterexample :
    isBlank " ".toList = true ∧
      askQuestion ⟨false, [0], none, []⟩ (some [sampleChunk]) " ".toList =
        .error ⟨500, noKeyMsg⟩ :=
  ⟨rfl, rfl⟩

/-- Claim C6: every reset clears the in-memory index, whatever the
persistence layer does; the index directory exists again afterwards in
every branch; and when deletion fails the caller receives a 500 error
carrying the underlying cause, with the in-memory index already
cleared. -/
theorem C6_resetClearsAndRecreates (env : ResetEnv)
    (store : Option (List DocChunk)) :
    (resetIndex env store).store = none ∧
      (resetIndex env store).dirExistsAfter = true ∧
      (∀ cause, env.rmtreeError = some cause → env.dirExists = true →
        (resetIndex env store).response = .error ⟨500, resetErrMsgFor cause⟩) := by
  cases env with
  | mk de re =>
    cases de with
    | false => exact ⟨rfl, rfl, fun cause _ hd => by cases hd⟩
    | true =>
      cases re with
      | none => exact ⟨rfl, rfl, fun cause hc _ => by cases hc⟩
      | some c =>
        refine ⟨rfl, rfl, fun cause hc _ => ?_⟩
        cases hc
        rfl

/-- Claim C6 witness: a failing `rmtree` still leaves the store cleared,
the directory recreated, and surfaces the cause in a 500 error. -/
theorem C6_resetClearsAndRecreates_witness :
    (resetIndex ⟨true, some "denied".toList⟩ (some [sampleChunk])).store = none ∧
      (resetIndex ⟨true, some "denied".toList⟩ (some [sampleChunk])).dirExistsAfter
        = true ∧
      (resetIndex ⟨true, some "denied".toList⟩ (some [sampleChunk])).response =
        .error ⟨500, resetErrMsgFor "denied".toList⟩ := by
  obtain ⟨h1, h2, h3⟩ :=
    C6_resetClearsAndRecreates ⟨true, some "denied".toList⟩ (some [sampleChunk])
  exact ⟨h1, h2, h3 "denied".toList rfl rfl⟩

/-- Claim C7: querying with no index loaded always yields the 400 "No
documents have been indexed" client error (a structured response, not a
crash), and a query after any reset is indistinguishable from a query in
a fresh process with no persisted index. -/
theorem C7_noIndexClientError (qenv : QueryEnv) (q : Chars) (renv : ResetEnv)
    (store : Option (List DocChunk)) (embOk loadFails : Bool) :
    askQuestion qenv none q = .error ⟨400, noIndexMsg⟩ ∧
      askQuestion qenv ((resetIndex renv store).store) q =
        askQuestion qenv (loadVectorStore embOk none loadFails) q := by
  constructor
  · rfl
  · have h1 : (resetIndex renv store).store = none :=
      (C6_resetClearsAndRecreates renv store).1
    have h2 : loadVectorStore embOk none loadFails = none := by
      cases embOk <;> rfl
    rw [h1, h2]

/-- Claim C8 (amended): an uploaded file with a missing filename or a
non-`.pdf` extension is skipped before any scratch write: the request
outcome is exactly as if the file were absent, so it contributes nothing
to the counts and raises no per-file error — provided at least one other
file remains in the request (a nonempty request in which nothing at all
is indexable returns the 400 "no valid PDFs" client error instead; see
the counterexample). -/
theorem C8_invalidNameInert (env : IngestEnv) (s p : Option (List DocChunk))
    (l1 l2 : List UploadFile) (f : UploadFile)
    (hname : acceptedFilename f = none) (hne : l1 ++ l2 ≠ []) :
    uploadDocuments env s p (l1 ++ f :: l2) = uploadDocuments env s p (l1 ++ l2) := by
  have hc : fileContribution f = none := by
    unfold fileContribution
    rw [hname]
  have hw : fileWriteAttempt f = none := hname
  have hloop := ingestLoop_remove_inert f hc hw l1 l2
  have hl1 : (l1 ++ f :: l2).length > 0 := by simp
  have hl2 : (l1 ++ l2).length > 0 := by
    cases h' : l1 ++ l2 with
    | nil => exact absurd h' hne
    | cons a t => simp [h']
  simp only [uploadDocuments, hloop, hl1, hl2]

/-- Claim C8 witness: a `.txt` file alongside a valid PDF changes nothing
in the outcome. -/
theorem C8_invalidNameInert_witness :
    acceptedFilename txtFile = none ∧
      ([helloFile] : List UploadFile) ++ [] ≠ [] ∧
      uploadDocuments ⟨true, none, false⟩ none none ([helloFile] ++ txtFile :: []) =
        uploadDocuments ⟨true, none, false⟩ none none ([helloFile] ++ []) :=
  ⟨rfl, by decide,
    C8_invalidNameInert ⟨true, none, false⟩ none none [helloFile] [] txtFile
      rfl (by decide)⟩

/-- Claim C8 counterexample: a request containing only a non-PDF file does
raise an error — the 400 "No PDF files provided were valid or
processable." client error. -/
theorem C8_counterexample :
    endsWithPdf "notes.txt".toList = false ∧
      (uploadDocuments ⟨true, none, false⟩ none none [txtFile]).response =
        .error ⟨400, noValidMsg⟩ :=
  ⟨rfl, rfl⟩

/-- Claim C9: a successful query returns the whitespace-trimmed LLM
answer together with at most three source documents, each built from a
stored chunk: its source filename plus a preview of the first 250
characters of the chunk followed by `"..."` (length at most 253). -/
theorem C9_answerShape (env : QueryEnv) (docs : List DocChunk) (q : Chars)
    (hg : env.groqConfigured = true) (hq : isBlank q = false)
    (hl : env.llmError = none) :
    ∃ r, askQuestion env (some docs) q = .ok r ∧
      r.answer = stripChars env.llmAnswer ∧
      r.source_documents.length ≤ 3 ∧
      ∀ sd ∈ r.source_documents, ∃ d ∈ docs, sd = previewOf d ∧
        sd.source_filename = d.source ∧ sd.content_preview.length ≤ 253 := by
  refine ⟨⟨stripChars env.llmAnswer, (retrieve3 env.ranking docs).map previewOf⟩,
    ?_, rfl, ?_, ?_⟩
  · simp [askQuestion, hg, hq, hl]
  · calc ((retrieve3 env.ranking docs).map previewOf).length
        = (retrieve3 env.ranking docs).length := List.length_map _ _
      _ ≤ 3 := by
          simp only [retrieve3]
          exact List.length_take_le 3 _
  · intro sd hsd
    rcases List.mem_map.mp hsd with ⟨d, hd, rfl⟩
    have hdm : d ∈ docs := by
      have hsub : d ∈ env.ranking.filterMap (fun i => docs[i]?) :=
        (List.take_sublist 3 _).subset hd
      rcases List.mem_filterMap.mp hsub with ⟨i, _, hget⟩
      exact List.getElem?_mem hget
    refine ⟨d, hdm, rfl, rfl, ?_⟩
    simp only [previewOf, List.length_append]
    have : (d.content.take 250).length ≤ 250 := List.length_take_le 250 _
    simp only [List.length_cons, List.length_nil]
    omega

/-- Claim C9 witness: a concrete successful query, with the answer
trimmed and one preview built from the stored chunk. -/
theorem C9_answerShape_witness :
    (⟨true, [0], none, "  ans  ".toList⟩ : QueryEnv).groqConfigured = true ∧
      isBlank "q".toList = false ∧
      (∃ r, askQuestion ⟨true, [0], none, "  ans  ".toList⟩ (some [sampleChunk])
            "q".toList = .ok r ∧
        r.answer = stripChars ("  ans  ".toList) ∧
        r.source_documents.length ≤ 3 ∧
        ∀ sd ∈ r.source_documents, ∃ d ∈ [sampleChunk], sd = previewOf d ∧
          sd.source_filename = d.source ∧ sd.content_preview.length ≤ 253) :=
  ⟨rfl, rfl,
    C9_answerShape ⟨true, [0], none, "  ans  ".toList⟩ [sampleChunk]
      "q".toList rfl rfl rfl⟩

/-- Claim C10: with the embedding model unavailable, ingestion fails
immediately with the 500 configuration error: no file is read or written
to scratch storage, nothing is counted, and neither the in-memory nor the
persisted index changes. -/
theorem C10_embeddingModelGate (env : IngestEnv) (s p : Option (List DocChunk))
    (files : List UploadFile) (h : env.embeddingModelOk = false) :
    uploadDocuments env s p files =
      ⟨.error ⟨500, embNotInitMsg⟩, s, p, []⟩ := by
  simp [uploadDocuments, h]

/-- Claim C10 witness: a concrete request against an uninitialised
embedding model. -/
theorem C10_embeddingModelGate_witness :
    (⟨false, none, false⟩ : IngestEnv).embeddingModelOk = false ∧
      uploadDocuments ⟨false, none, false⟩ (some [sampleChunk]) none [helloFile] =
        ⟨.error ⟨500, embNotInitMsg⟩, some [sampleChunk], none, []⟩ :=
  ⟨rfl, C10_embeddingModelGate ⟨false, none, false⟩ (some [sampleChunk]) none
    [helloFile] rfl⟩

end PdfQA
